import Mathlib

/-!
Verification of the TravelMate travel-agent repository.

Shallow embedding of the data models (`src/api/datamodels.py`), the
database helpers (`src/db/db_utils.py`), the plan-status API endpoint
(`src/api/app.py`), and the orchestrator / agent post-processing code
(`src/phases/phase2_crewai/…`, `src/phases/phase3_autogen/…`).

Conventions used throughout:
* Python `float` is modelled as `ℚ` (none of the verified code performs
  any float arithmetic beyond copying and comparing values).
* Python `date` objects are modelled as integer day ordinals.
* A Python value that may be absent, `None`, or of several runtime types
  (the raw dictionaries handled by the pydantic validators and by the
  agent post-processing code) is modelled by the inductive type `PVal`.
-/

namespace TravelAgent

/-- Model of a dynamically-typed Python value as it occurs in the raw
dictionaries that reach the pydantic validators (`values.get(...)`) and
the agent post-processing code.  `vNone` stands both for an absent key
and for an explicit `None` (Python's `dict.get` conflates the two). -/
inductive PVal where
  | vNone : PVal
  | vBool : Bool → PVal
  | vInt : ℤ → PVal
  | vFloat : ℚ → PVal
  | vStr : String → PVal
  | vDate : ℤ → PVal
  deriving DecidableEq, Repr

/-- Python truthiness: `None`, `False`, `0`, `0.0` and `""` are falsy;
`date` objects are always truthy. -/
def pyTruthy : PVal → Bool
  | .vNone => false
  | .vBool b => b
  | .vInt z => z != 0
  | .vFloat q => q != 0
  | .vStr s => s != ""
  | .vDate _ => true

/-- Digits of a decimal literal, accumulated left to right; `none` when a
non-digit character is met. -/
def digitsValAux : List Char → ℕ → Option ℕ
  | [], acc => some acc
  | c :: cs, acc =>
    if c.isDigit then digitsValAux cs (acc * 10 + (c.toNat - 48)) else none

/-- Value of a non-empty all-digits character list. -/
def digitsVal (cs : List Char) : Option ℕ :=
  if cs = [] then none else digitsValAux cs 0

/-- ASCII lower-casing of a character (the behaviour of `str.lower()` on
the ASCII strings handled by this code base). -/
def lowerAscii (c : Char) : Char :=
  if 'A' ≤ c ∧ c ≤ 'Z' then Char.ofNat (c.toNat + 32) else c

/-- Model of Python `str.lower()`. -/
def pyLower (s : String) : String :=
  String.mk (s.data.map lowerAscii)

/-- Whitespace for `str.strip()`. -/
def isSpaceChar (c : Char) : Bool :=
  c == ' ' || c == '\t' || c == '\n' || c == '\r'

/-- Model of Python `str.strip()`: drop leading and trailing whitespace. -/
def pyStrip (s : String) : String :=
  String.mk (((s.data.dropWhile isSpaceChar).reverse.dropWhile isSpaceChar).reverse)

/-- Model of Python `int(str)`: optional surrounding whitespace, optional
sign, then decimal digits only (`int("2.5")` raises). -/
def parseIntStr (s : String) : Option ℤ :=
  match (pyStrip s).toList with
  | '-' :: cs => (digitsVal cs).map (fun n => -(n : ℤ))
  | '+' :: cs => (digitsVal cs).map (fun n => (n : ℤ))
  | cs => (digitsVal cs).map (fun n => (n : ℤ))

/-- Split a character list at the first `'.'`. -/
def splitDot : List Char → List Char × Option (List Char)
  | [] => ([], none)
  | '.' :: rest => ([], some rest)
  | c :: rest =>
    let p := splitDot rest
    (c :: p.1, p.2)

/-- Value of an unsigned decimal literal `digits[.digits]` (at least one
digit overall, as accepted by Python `float`). -/
def parseUnsignedFloat (cs : List Char) : Option ℚ :=
  let p := splitDot cs
  match p.2 with
  | none => (digitsVal p.1).map (fun n => (n : ℚ))
  | some frac =>
    if p.1 = [] ∧ frac = [] then none
    else
      match digitsValAux p.1 0, digitsValAux frac 0 with
      | some ip, some fp =>
        if frac = [] then some (ip : ℚ)
        else some ((ip : ℚ) + (fp : ℚ) / ((10 : ℚ) ^ frac.length))
      | _, _ => none

/-- Model of Python `float(str)` for plain decimal literals (scientific
notation and the inf/nan spellings are not needed by the verified code). -/
def parseFloatStr (s : String) : Option ℚ :=
  match (pyStrip s).toList with
  | '-' :: cs => (parseUnsignedFloat cs).map (fun q => -q)
  | '+' :: cs => parseUnsignedFloat cs
  | cs => parseUnsignedFloat cs

/-- Truncation toward zero, the behaviour of Python `int(float)`. -/
def ratTrunc (q : ℚ) : ℤ :=
  if 0 ≤ q then ⌊q⌋ else -⌊-q⌋

/-- Model of Python `int(x)`; `none` models the call raising. -/
def pyToInt : PVal → Option ℤ
  | .vNone => none
  | .vBool b => some (if b then 1 else 0)
  | .vInt z => some z
  | .vFloat q => some (ratTrunc q)
  | .vStr s => parseIntStr s
  | .vDate _ => none

/-- Model of Python `float(x)`; `none` models the call raising. -/
def pyToFloat : PVal → Option ℚ
  | .vNone => none
  | .vBool b => some (if b then 1 else 0)
  | .vInt z => some (z : ℚ)
  | .vFloat q => some q
  | .vStr s => parseFloatStr s
  | .vDate _ => none

/-- `needle` is an initial segment of `hay` (character lists). -/
def strLeads : List Char → List Char → Bool
  | [], _ => true
  | _ :: _, [] => false
  | a :: as, b :: bs => a == b && strLeads as bs

/-- `needle` occurs somewhere in `hay` (character lists). -/
def strHasSub (needle : List Char) : List Char → Bool
  | [] => needle == []
  | b :: bs => strLeads needle (b :: bs) || strHasSub needle bs

/-- Model of Python's substring test `needle in hay`. -/
def pyIn (needle hay : String) : Bool :=
  strHasSub needle.toList hay.toList

/-! ## Accommodation-type normalization (`src/api/datamodels.py`)

`Trip.normalize_accommodation_type` (lines 126-184) and
`TripRequirements.normalize_accommodation_type` (lines 340-399) share the
same mapping dictionary and differ only in their `valid_types` list: the
`Trip` version checks 9 literals, the `TripRequirements` version 13. -/

/-- The `accommodation_mapping` dict, in insertion order (Python dicts
iterate in insertion order, which matters for the partial-match loop). -/
def accommodation_mapping : List (String × String) :=
  [("luxury hotel", "luxury"),
   ("luxury resort", "luxury"),
   ("budget hotel", "hotel"),
   ("boutique hotel", "hotel"),
   ("business hotel", "hotel"),
   ("luxury accommodation", "luxury"),
   ("budget accommodation", "hotel"),
   ("upscale hotel", "luxury"),
   ("premium hotel", "luxury"),
   ("high-end hotel", "luxury"),
   ("5-star hotel", "luxury"),
   ("4-star hotel", "hotel"),
   ("3-star hotel", "hotel"),
   ("budget hostel", "hostel"),
   ("luxury hostel", "hostel"),
   ("vacation rental", "apartment"),
   ("rental apartment", "apartment"),
   ("holiday apartment", "apartment"),
   ("serviced apartment", "apartment"),
   ("airbnb", "apartment"),
   ("bed and breakfast", "guesthouse"),
   ("b&b", "guesthouse"),
   ("inn", "guesthouse"),
   ("motel", "hotel"),
   ("lodge", "hotel"),
   ("villa", "luxury"),
   ("mansion", "luxury"),
   ("penthouse", "luxury"),
   ("suite", "luxury")]

/-- The `valid_types` list inside `Trip.normalize_accommodation_type`
(lines 178-179): only 9 entries. -/
def trip_valid_types : List String :=
  ["hotel", "resort", "hostel", "apartment", "guesthouse",
   "luxury", "own_place", "friend_place", "official_accommodation"]

/-- The `valid_types` list inside
`TripRequirements.normalize_accommodation_type` (lines 392-394). -/
def tripreq_valid_types : List String :=
  ["hotel", "resort", "hostel", "apartment", "guesthouse",
   "luxury", "own_place", "friend_place", "official_accommodation",
   "budget", "family-friendly", "business", "youth hostel"]

/-- The `Literal[...]` type of `Trip.accommodation_type`
(lines 80-84): the 13 values a persisted Trip may carry. -/
def TripAccommodationLiterals : List String :=
  ["hotel", "resort", "hostel", "apartment", "guesthouse",
   "luxury", "own_place", "friend_place", "official_accommodation",
   "budget", "family-friendly", "business", "youth hostel"]

/-- Shared body of the two normalizers: falsy input defaults, lowercase,
exact dictionary lookup, first partial (substring) match in insertion
order, membership in `valid`, default `"hotel"`. -/
def normalize_accommodation_core (valid : List String) (value : String) : String :=
  if value = "" then "hotel"
  else
    let vl := pyLower value
    match accommodation_mapping.lookup vl with
    | some m => m
    | none =>
      match accommodation_mapping.find? (fun kv => pyIn kv.1 vl) with
      | some kv => kv.2
      | none => if valid.contains vl then vl else "hotel"

/-- `Trip.normalize_accommodation_type` (datamodels.py lines 126-184). -/
def Trip_normalize_accommodation_type (value : String) : String :=
  normalize_accommodation_core trip_valid_types value

/-- `TripRequirements.normalize_accommodation_type`
(datamodels.py lines 340-399). -/
def TripRequirements_normalize_accommodation_type (value : String) : String :=
  normalize_accommodation_core tripreq_valid_types value

/-! ## The `Trip` model (`src/api/datamodels.py` lines 58-217)

Only the validated fields relevant to the claims are carried.  Dates are
integer day ordinals; `today` is a parameter standing for `date.today()`
in `validate_future_date`. -/

/-- The fields of a successfully constructed `Trip` that the claims
refer to. -/
structure Trip where
  id : Option ℤ
  origin : String
  destination : String
  trip_startdate : ℤ
  trip_enddate : ℤ
  accommodation_type : String
  no_of_adults : ℤ
  no_of_children : ℤ
  budget : ℚ
  trip_status : String
  deriving DecidableEq, Repr

/-- Pydantic construction of a `Trip`.  Field validators run in
declaration order and pydantic collects all failures: `validate_future_date`
on `trip_startdate` (skipped for existing trips, i.e. when `id` is set),
`validate_dates` on `trip_enddate` (skipped when `trip_startdate` itself
failed, since the source guards on `"trip_startdate" in info.data`),
the `before`-mode accommodation normalizer followed by the `Literal`
check, and the `ge` bounds on `no_of_adults`, `no_of_children`, `budget`.
An absent `accommodation_type` (modelled `none`) hits the normalizer's
falsy branch and becomes `"hotel"`. -/
def mkTrip (id : Option ℤ) (today : ℤ) (origin destination : String)
    (trip_startdate trip_enddate : ℤ) (accommodation_type : Option String)
    (no_of_adults no_of_children : ℤ) (budget : ℚ) :
    Except (List String) Trip :=
  let e1 : List String :=
    if id = none ∧ trip_startdate ≤ today then
      ["Trip start date must be in the future"] else []
  let e2 : List String :=
    if e1 = [] ∧ trip_enddate ≤ trip_startdate then
      ["Trip end date must be after start date"] else []
  let acc := Trip_normalize_accommodation_type (accommodation_type.getD "")
  let e3 : List String :=
    if TripAccommodationLiterals.contains acc then []
    else ["accommodation_type must be one of the allowed literals"]
  let e4 : List String := if no_of_adults < 1 then ["Must be at least 1 adult"] else []
  let e5 : List String := if no_of_children < 0 then ["Cannot be negative"] else []
  let e6 : List String := if budget < 0 then ["Budget cannot be negative"] else []
  let errs := e1 ++ e2 ++ e3 ++ e4 ++ e5 ++ e6
  if errs = [] then
    .ok ⟨id, origin, destination, trip_startdate, trip_enddate, acc,
         no_of_adults, no_of_children, budget, "draft"⟩
  else .error errs

/-! ## Plan models (`src/api/datamodels.py` lines 236-609)

The persisted `*_json` columns hold `json.dumps` output.  Since
`json.dumps` is injective on the values stored here, `json.loads` is its
left inverse, and its output is always a non-empty — hence truthy —
string, the text blobs are modelled by the parsed values themselves
wrapped in `Option` (`none` = SQL `NULL`); the source's truthiness tests
`if self.xxx_json` become `Option.isSome` tests. -/

/-- A parsed JSON value (the `Union[str, List[Dict], Dict]` itinerary
payloads and anything `json.dumps`/`json.loads` round-trips). -/
inductive PyJson where
  | jnull : PyJson
  | jbool : Bool → PyJson
  | jnum : ℚ → PyJson
  | jstr : String → PyJson
  | jarr : List PyJson → PyJson
  | jobj : List (String × PyJson) → PyJson

/-- `HotelSuggestion` (datamodels.py lines 486-510); every field has a
default so partial agent dictionaries validate. -/
structure HotelSuggestion where
  name : String := "Hotel Name Not Available"
  price_per_night : ℚ := 0
  rating : ℚ := 0
  location : String := "Location TBD"
  amenities : List String := []
  deriving DecidableEq, Repr

/-- `FlightSuggestion` (datamodels.py lines 513-541). -/
structure FlightSuggestion where
  airline : String := "Airline TBD"
  departure_time : String := "Time TBD"
  arrival_time : Option String := none
  price : ℚ := 0
  duration : String := "Duration TBD"
  stops : ℤ := 0
  deriving DecidableEq, Repr

/-- An element of a raw `hotels` list as it reaches
`TravelPlan.validate_hotels`: `hdict` is a dict (or an actual
`HotelSuggestion` instance — the validator treats both alike), already
rebuilt as the `HotelSuggestion` it validates to with defaults for
missing keys; `hother` is any other runtime value (a JSON string,
number, nested list, ...), which the validator's
`isinstance` checks silently drop. -/
inductive HotelItem where
  | hdict : HotelSuggestion → HotelItem
  | hother : PyJson → HotelItem

/-- An element of a raw `flights` list (see `HotelItem`). -/
inductive FlightItem where
  | fdict : FlightSuggestion → FlightItem
  | fother : PyJson → FlightItem

/-- The dict branch of the `validate_hotels` loop. -/
def hotelItemDict : HotelItem → Option HotelSuggestion
  | .hdict h => some h
  | .hother _ => none

/-- The dict branch of the `validate_flights` loop. -/
def flightItemDict : FlightItem → Option FlightSuggestion
  | .fdict f => some f
  | .fother _ => none

/-- `TravelPlan` (datamodels.py lines 544-609). -/
structure TravelPlan where
  itinerary : PyJson := .jstr "Itinerary will be provided"
  hotels : List HotelSuggestion := []
  flights : List FlightSuggestion := []
  daily_budget : ℚ := 0
  total_estimated_cost : Option ℚ := none

/-- `TravelPlan.validate_hotels` (lines 555-568): a falsy (empty) input
becomes `[]`; otherwise the loop keeps only elements that are dicts (or
`HotelSuggestion` instances) and silently drops everything else, so a
non-empty raw list of non-dict items still validates to `[]`. -/
def validate_hotels : List HotelItem → List HotelSuggestion
  | [] => []
  | v => v.filterMap hotelItemDict

/-- `TravelPlan.validate_flights` (lines 570-583), same shape. -/
def validate_flights : List FlightItem → List FlightSuggestion
  | [] => []
  | v => v.filterMap flightItemDict

/-- Pydantic construction of a `TravelPlan`, running the two
`mode="before"` list validators on the raw lists. -/
def mkTravelPlan (itinerary : PyJson) (hotels : List HotelItem)
    (flights : List FlightItem) (daily_budget : ℚ)
    (total_estimated_cost : Option ℚ) : TravelPlan :=
  { itinerary := itinerary
    hotels := validate_hotels hotels
    flights := validate_flights flights
    daily_budget := daily_budget
    total_estimated_cost := total_estimated_cost }

/-- `TripPlanModel` (datamodels.py lines 236-285), the persisted form of
a plan.  `status` is kept as a raw string here; the `Literal` check of
the pydantic model is the separate `mkTripPlanModel` below, which is what
`TripPlanModel(**dict(row))` runs on a database row. -/
structure TripPlanModel where
  id : Option ℤ := none
  trip_id : ℤ
  itinerary_json : Option PyJson := none
  hotels_json : Option (List HotelItem) := none
  flights_json : Option (List FlightItem) := none
  daily_budget : ℚ := 0
  total_estimated_cost : ℚ := 0
  status : String := "draft"
  version : ℤ := 1

/-- The `Literal["draft", "approved", "rejected"]` of
`TripPlanModel.status` (datamodels.py line 247). -/
def planStatusLiterals : List String := ["draft", "approved", "rejected"]

/-- `TripPlanModel.to_travel_plan` (lines 251-266): parse each blob when
present (the stored `"[]"` blob of an empty list is a truthy string and
still parses to `[]`), then build the `TravelPlan`. -/
def TripPlanModel.to_travel_plan (m : TripPlanModel) : TravelPlan :=
  let itinerary := match m.itinerary_json with
    | some j => j
    | none => .jstr "Itinerary not available"
  let hotels := match m.hotels_json with
    | some hs => hs
    | none => []
  let flights := match m.flights_json with
    | some fs => fs
    | none => []
  mkTravelPlan itinerary hotels flights m.daily_budget
    (some m.total_estimated_cost)

/-- `TripPlanModel.from_travel_plan` (lines 268-282).  The hotel and
flight blobs store `[h.dict() for h in ...]`, i.e. lists of dicts
(`HotelItem.hdict`/`FlightItem.fdict` elements).  The column value
`travel_plan.total_estimated_cost or 0.0` maps `None` to `0.0`; on a
float `x` Python's `x or 0.0` returns `x` when `x` is truthy and `0.0`
(which then equals `x`) when `x == 0.0`, i.e. exactly `Option.getD 0`. -/
def TripPlanModel.from_travel_plan (travel_plan : TravelPlan)
    (trip_id : ℤ) (version : ℤ) : TripPlanModel :=
  { trip_id := trip_id
    itinerary_json := some travel_plan.itinerary
    hotels_json := some (travel_plan.hotels.map HotelItem.hdict)
    flights_json := some (travel_plan.flights.map FlightItem.fdict)
    daily_budget := travel_plan.daily_budget
    total_estimated_cost := travel_plan.total_estimated_cost.getD 0
    version := version
    status := "draft" }

/-! ## `TripRequirements` (`src/api/datamodels.py` lines 292-483)

The `model_validator(mode="before")` `auto_fix_and_validate` receives the
raw input dictionary, so its fields are modelled as `PVal` (with `vNone`
for an absent key, which is what `values.get` returns).  Field coercion
runs afterwards, in declaration order; pydantic's coercion of each raw
value to the declared field type is modelled by the `coerce*` helpers
(`none` results model absent values, `Except.error` a validation error). -/

/-- Raw constructor input of `TripRequirements` (the `values` dict seen
by `auto_fix_and_validate`).  Fields that no claim touches (currency,
purpose, preference/constraint strings) are omitted; they are plain
strings with defaults and no validators. -/
structure ReqInput where
  mode : Option String := none
  origin : PVal := .vNone
  destination : PVal := .vNone
  trip_startdate : PVal := .vNone
  trip_enddate : PVal := .vNone
  no_of_adults : PVal := .vNone
  no_of_children : PVal := .vNone
  budget : PVal := .vNone
  accommodation_type : Option String := none
  error : Option String := none
  missing_fields : Option (List String) := none
  agent_message : Option String := none
  deriving DecidableEq, Repr

/-- The `required_fields` list of `auto_fix_and_validate` (line 418),
in source order. -/
def requiredFields : List String :=
  ["origin", "destination", "trip_startdate", "trip_enddate",
   "no_of_adults", "budget"]

/-- `values.get(field)` for the six required field names. -/
def reqGet (v : ReqInput) : String → PVal
  | "origin" => v.origin
  | "destination" => v.destination
  | "trip_startdate" => v.trip_startdate
  | "trip_enddate" => v.trip_enddate
  | "no_of_adults" => v.no_of_adults
  | "budget" => v.budget
  | _ => .vNone

/-- The required fields whose raw value is falsy — the `missing` list
computed by the `for field in required_fields` loop (lines 421-423). -/
def missingOf (v : ReqInput) : List String :=
  requiredFields.filter (fun f => !pyTruthy (reqGet v f))

/-- `TripRequirements.auto_fix_and_validate` (datamodels.py lines
401-441), the `mode="before"` model validator: default the mode to
`"trip"`; in trip mode demote to `"missing"` when any required field is
falsy, recording `missing_fields`, `error` and `agent_message`; in
missing mode fill any falsy one of those three with its default. -/
def auto_fix_and_validate (v : ReqInput) : ReqInput :=
  let mode := v.mode.getD "trip"
  let v1 := { v with mode := some mode }
  if mode = "trip" then
    let missing := missingOf v
    if missing ≠ [] then
      { v1 with
        mode := some "missing"
        missing_fields := some missing
        error := some "MISSING"
        agent_message := some ("Please provide: " ++ String.intercalate ", " missing) }
    else v1
  else if mode = "missing" then
    { v1 with
      missing_fields :=
        match v.missing_fields with
        | none => some ["origin", "destination"]
        | some [] => some ["origin", "destination"]
        | some l => some l
      error :=
        match v.error with
        | none => some "MISSING"
        | some e => if e = "" then some "MISSING" else some e
      agent_message :=
        match v.agent_message with
        | none => some "Additional information needed"
        | some m => if m = "" then some "Additional information needed" else some m }
  else v1

/-- Coercion of a raw value to `Optional[str]`. -/
def coerceOptStr : PVal → Except String (Option String)
  | .vNone => .ok none
  | .vStr s => .ok (some s)
  | _ => .error "string expected"

/-- Coercion of a raw value to `Optional[date]` (date objects only; the
ISO-string parsing pydantic also accepts is not needed by any claim). -/
def coerceOptDate : PVal → Except String (Option ℤ)
  | .vNone => .ok none
  | .vDate d => .ok (some d)
  | _ => .error "date expected"

/-- Coercion of a raw value to `int` (pydantic v2 lax mode: exact ints,
integral floats and integer strings; bools are rejected). -/
def coerceIntVal : PVal → Except String ℤ
  | .vInt z => .ok z
  | .vFloat q => if q.den = 1 then .ok q.num else .error "int expected"
  | .vStr s =>
    match parseIntStr s with
    | some z => .ok z
    | none => .error "int expected"
  | _ => .error "int expected"

/-- Coercion of a raw value to `Optional[int]`. -/
def coerceOptInt : PVal → Except String (Option ℤ)
  | .vNone => .ok none
  | v => (coerceIntVal v).map some

/-- Coercion of a raw value to `float`. -/
def coerceFloatVal : PVal → Except String ℚ
  | .vInt z => .ok (z : ℚ)
  | .vFloat q => .ok q
  | .vStr s =>
    match parseFloatStr s with
    | some q => .ok q
    | none => .error "float expected"
  | _ => .error "float expected"

/-- Coercion of a raw value to `Optional[float]`. -/
def coerceOptFloat : PVal → Except String (Option ℚ)
  | .vNone => .ok none
  | v => (coerceFloatVal v).map some

/-- Coercion of the raw `no_of_adults` value to `Optional[int] = 1`:
an absent key takes the field default. -/
def coerceAdultsField : PVal → Except String (Option ℤ)
  | .vNone => .ok (some 1)
  | nv => (coerceIntVal nv).map some

/-- Coercion of the raw `no_of_children` value to `int = 0`: an absent
key takes the field default. -/
def coerceChildrenField : PVal → Except String ℤ
  | .vNone => .ok 0
  | nv => coerceIntVal nv

/-- A validated `TripRequirements` object. -/
structure TripRequirements where
  mode : String
  origin : Option String := none
  destination : Option String := none
  trip_startdate : Option ℤ := none
  trip_enddate : Option ℤ := none
  no_of_adults : Option ℤ := some 1
  no_of_children : ℤ := 0
  budget : Option ℚ := none
  accommodation_type : String := "hotel"
  error : Option String := none
  missing_fields : Option (List String) := none
  agent_message : Option String := none
  deriving DecidableEq, Repr

/-- Full pydantic construction of a `TripRequirements`: run
`auto_fix_and_validate` on the raw values, then validate the fields in
declaration order — the `mode` literal, the coercions, `validate_dates`
on `trip_enddate` (only in trip mode, only when both dates are present;
dates are always truthy), the accommodation normalizer (an absent value
takes the field default `"hotel"`), and the `error` literal. -/
def mkTripRequirements (v : ReqInput) : Except String TripRequirements := do
  let w := auto_fix_and_validate v
  let mode ←
    if w.mode = some "trip" then Except.ok "trip"
    else if w.mode = some "missing" then Except.ok "missing"
    else Except.error "mode must be trip or missing"
  let origin ← coerceOptStr w.origin
  let destination ← coerceOptStr w.destination
  let trip_startdate ← coerceOptDate w.trip_startdate
  let trip_enddate ← coerceOptDate w.trip_enddate
  let _ ←
    if mode = "trip" then
      match trip_startdate, trip_enddate with
      | some s, some e =>
        if e ≤ s then Except.error "Trip end date must be after start date"
        else Except.ok ()
      | _, _ => Except.ok ()
    else Except.ok ()
  let no_of_adults ← coerceAdultsField w.no_of_adults
  let no_of_children ← coerceChildrenField w.no_of_children
  let budget ← coerceOptFloat w.budget
  let accommodation_type :=
    TripRequirements_normalize_accommodation_type
      (w.accommodation_type.getD "hotel")
  let error ←
    match w.error with
    | none => Except.ok none
    | some e =>
      if e = "MISSING" then Except.ok (some "MISSING")
      else Except.error "error must be the literal MISSING"
  Except.ok
    { mode := mode
      origin := origin
      destination := destination
      trip_startdate := trip_startdate
      trip_enddate := trip_enddate
      no_of_adults := no_of_adults
      no_of_children := no_of_children
      budget := budget
      accommodation_type := accommodation_type
      error := error
      missing_fields := w.missing_fields
      agent_message := w.agent_message }

/-- The raw input values are type-correct for their declared fields
(each pydantic coercion succeeds); demotion to missing mode never turns
on this, only on truthiness of the required fields. -/
def wellTypedReq (v : ReqInput) : Bool :=
  (coerceOptStr v.origin).isOk && (coerceOptStr v.destination).isOk &&
  (coerceOptDate v.trip_startdate).isOk && (coerceOptDate v.trip_enddate).isOk &&
  (coerceAdultsField v.no_of_adults).isOk &&
  (coerceChildrenField v.no_of_children).isOk &&
  (coerceOptFloat v.budget).isOk

/-! ## Database layer (`src/db/db_utils.py`)

A `trip_plans` row carries the same columns as `TripPlanModel`; the
table is modelled as a list of raw rows.  `TripPlanModel(**dict(row))`
is the validating constructor `mkTripPlanModel`. -/

/-- A raw `trip_plans` row (the dict SQLite hands back). -/
structure PlanRow where
  id : Option ℤ := none
  trip_id : ℤ
  itinerary_json : Option PyJson := none
  hotels_json : Option (List HotelItem) := none
  flights_json : Option (List FlightItem) := none
  daily_budget : ℚ := 0
  total_estimated_cost : ℚ := 0
  status : String := "draft"
  version : ℤ := 1

/-- A `trips` row, reduced to the columns the claims touch. -/
structure TripRow where
  id : ℤ
  trip_status : String
  deriving DecidableEq, Repr

/-- `TripPlanModel(**dict(row))`: pydantic validation of a raw row —
the only constrained column here is the `status` literal. -/
def mkTripPlanModel (r : PlanRow) : Except String TripPlanModel :=
  if planStatusLiterals.contains r.status then
    .ok { id := r.id, trip_id := r.trip_id,
          itinerary_json := r.itinerary_json,
          hotels_json := r.hotels_json,
          flights_json := r.flights_json,
          daily_budget := r.daily_budget,
          total_estimated_cost := r.total_estimated_cost,
          status := r.status, version := r.version }
  else .error "status must be one of draft, approved, rejected"

/-- `ORDER BY version DESC LIMIT 1`: a row of maximal `version` among
the given rows (`none` on an empty selection). -/
def pickLatest : List PlanRow → Option PlanRow
  | [] => none
  | r :: rest =>
    match pickLatest rest with
    | none => some r
    | some b => if b.version < r.version then some r else some b

/-- `get_trip_plan_by_trip_id` (db_utils.py lines 379-399): with an
explicit version, the first row matching trip id and version; without
one, the row of highest version for the trip.  The found row is passed
through `TripPlanModel(**dict(row))`; an `Except.error` models that
constructor raising. -/
def get_trip_plan_by_trip_id (plans : List PlanRow) (trip_id : ℤ)
    (version : Option ℤ) : Except String (Option TripPlanModel) :=
  let row :=
    match version with
    | some v =>
      plans.find? (fun r => decide (r.trip_id = trip_id ∧ r.version = v))
    | none => pickLatest (plans.filter (fun r => decide (r.trip_id = trip_id)))
  match row with
  | some r => (mkTripPlanModel r).map some
  | none => .ok none

/-- `update_trip_plan_status` (db_utils.py lines 445-457):
`UPDATE trip_plans SET status=? WHERE id=?`, returning `rowcount > 0`.
`pid` is `Option` because the orchestrators pass `plan.id`; SQL `id=NULL`
matches no row. -/
def update_trip_plan_status (plans : List PlanRow) (pid : Option ℤ)
    (status : String) : List PlanRow × Bool :=
  (plans.map (fun r =>
      if pid.isSome ∧ r.id = pid then { r with status := status } else r),
   plans.any (fun r => pid.isSome && decide (r.id = pid)))

/-- `update_trip_status` (db_utils.py lines 313-318):
`UPDATE trips SET trip_status=? WHERE id=?`. -/
def update_trip_status (trips : List TripRow) (trip_id : ℤ)
    (trip_status : String) : List TripRow :=
  trips.map (fun r =>
    if r.id = trip_id then { r with trip_status := trip_status } else r)

/-- Status of the `trip_plans` row with the given id. -/
def planStatusOf (plans : List PlanRow) (pid : Option ℤ) : Option String :=
  (plans.find? (fun r => decide (r.id = pid))).map (·.status)

/-- Status of the `trips` row with the given id. -/
def tripStatusOf (trips : List TripRow) (trip_id : ℤ) : Option String :=
  (trips.find? (fun r => decide (r.id = trip_id))).map (·.trip_status)

/-- The database state the approval workflows touch. -/
structure DBState where
  trips : List TripRow
  plans : List PlanRow

/-! ## Approval workflows

`CrewAITripOrchestrator.continue_trip_approval`
(`src/phases/phase2_crewai/trip_orchestrator.py` lines 183-223) and
`AutoGenTripOrchestrator.continue_trip_approval`
(`src/phases/phase3_autogen/trip_orchestrator.py` lines 183-195).
The result is the updated database plus the `success` flag of the
returned dict; an exception escaping `get_trip_plan_by_trip_id` is the
`Except.error` case. -/

/-- Phase-2 (CrewAI) approval: `"approved"` sets the latest plan to
`approved` and the trip to `confirmed`; any other decision sets the plan
to `rejected` and the trip back to `draft`. -/
def phase2_continue_trip_approval (db : DBState) (trip_id : ℤ)
    (approval_decision : String) : Except String (DBState × Bool) :=
  match get_trip_plan_by_trip_id db.plans trip_id none with
  | .error e => .error e
  | .ok none => .ok (db, false)
  | .ok (some plan) =>
    if approval_decision = "approved" then
      .ok (⟨update_trip_status db.trips trip_id "confirmed",
            (update_trip_plan_status db.plans plan.id "approved").1⟩, true)
    else
      .ok (⟨update_trip_status db.trips trip_id "draft",
            (update_trip_plan_status db.plans plan.id "rejected").1⟩, true)

/-- Phase-3 (AutoGen) approval: writes the decision string into the
latest plan's status and returns; the owning trip row is not touched. -/
def phase3_continue_trip_approval (db : DBState) (trip_id : ℤ)
    (approval_decision : String) : Except String (DBState × Bool) :=
  match get_trip_plan_by_trip_id db.plans trip_id none with
  | .error e => .error e
  | .ok none => .ok (db, false)
  | .ok (some plan) =>
    .ok (⟨db.trips,
          (update_trip_plan_status db.plans plan.id approval_decision).1⟩, true)

/-! ## Plan-status API endpoint (`src/api/app.py` lines 180-216) -/

/-- The status values `update_plan_status` accepts. -/
def allowedStatusValues : List String :=
  ["draft", "confirmed", "approved", "rejected"]

/-- `update_plan_status`: lower-case and strip the incoming status,
reject values outside the allowed set, otherwise write it through
`update_trip_plan_status`; the `Bool` is the returned `success` flag. -/
def update_plan_status (plans : List PlanRow) (plan_id : ℤ)
    (status : String) : List PlanRow × Bool :=
  let s := pyStrip (pyLower status)
  if allowedStatusValues.contains s then
    update_trip_plan_status plans (some plan_id) s
  else (plans, false)

/-! ## Phase-2 agent post-processing (`src/phases/phase2_crewai/trip_agents.py`)

`planner` (lines 450-516): the model output is parsed with `json.loads`
and handed to `TravelPlan(**data)`; the outcome of the `try` block is
the `Option PlannerParsed` argument (`none` = the `except` branch,
reached on a JSON parse failure or a pydantic validation error).  Inside the `try` block the trip-unwrapping adapter and
the `setdefault` calls mutate `data`, but `data` is then reassigned by a
second `json.loads(raw[start:end])`, discarding those effects; the hard
validation guard therefore operates on the originally parsed value, which
is what `PlannerParsed` models. -/

/-- The parsed planner output relevant to the guard: each key is absent
(`none`) or carries its parsed value. -/
structure PlannerParsed where
  itinerary : Option PyJson := none
  hotels : Option (List HotelItem) := none
  flights : Option (List FlightItem) := none
  daily_budget : Option ℚ := none
  total_estimated_cost : Option ℚ := none

/-- The fallback hotel dict the hard validation guard inserts. -/
def fallback_hotel (destination : String) : HotelSuggestion :=
  { name := "Tool fallback hotel", price_per_night := 0, rating := 0,
    location := destination, amenities := [] }

/-- The fallback flight dict: its `departure`/`arrival` keys are not
fields of `FlightSuggestion` and pydantic ignores them, so only
`airline` survives and the other fields take their defaults. -/
def fallback_flight : FlightSuggestion :=
  { airline := "Tool fallback" }

/-- The value-level behaviour of `planner` after the crew call: on a
successful parse, apply the hard validation guard (a falsy — absent,
`None` or empty — `hotels`/`flights` entry is replaced by one fallback
dict; a truthy list passes the guard unchanged, so its non-dict elements
are later dropped by the `TravelPlan` validators) and build the
`TravelPlan`; when anything in the `try` block raises (`json.loads`
failure or a pydantic validation error), the `except` branch (`none`)
returns the fallback `TravelPlan` with empty lists. -/
def planner_result (parsed : Option PlannerParsed) (destination : String)
    (budget : Option ℚ) : TravelPlan :=
  match parsed with
  | none =>
    mkTravelPlan (.jstr "Fallback plan") [] [] 0 budget
  | some d =>
    let hotels :=
      match d.hotels with
      | none => [HotelItem.hdict (fallback_hotel destination)]
      | some [] => [HotelItem.hdict (fallback_hotel destination)]
      | some hs => hs
    let flights :=
      match d.flights with
      | none => [FlightItem.fdict fallback_flight]
      | some [] => [FlightItem.fdict fallback_flight]
      | some fs => fs
    mkTravelPlan (d.itinerary.getD (.jstr "Itinerary will be provided"))
      hotels flights (d.daily_budget.getD 0) d.total_estimated_cost

/-! `info_collector` numeric post-processing (trip_agents.py lines
313-335): the strict numeric defaults block. -/

/-- `data["no_of_adults"] = int(data.get("no_of_adults") or 1)` with the
surrounding `try/except` defaulting to `1`. -/
def fix_no_of_adults (v : PVal) : ℤ :=
  match pyToInt (if pyTruthy v then v else .vInt 1) with
  | some z => z
  | none => 1

/-- `data["no_of_children"] = int(data.get("no_of_children") or 0)` with
the surrounding `try/except` defaulting to `0`. -/
def fix_no_of_children (v : PVal) : ℤ :=
  match pyToInt (if pyTruthy v then v else .vInt 0) with
  | some z => z
  | none => 0

/-- The budget coercion: `None` is left alone, any other value is passed
through `float(...)`, and a raising conversion sets the value to `None`
(both the first numeric-fix block and the strict block implement this
same transformation). -/
def fix_budget (v : PVal) : PVal :=
  match v with
  | .vNone => .vNone
  | w =>
    match pyToFloat w with
    | some q => .vFloat q
    | none => .vNone

/-! ## Helper lemmas -/

theorem pickLatest_eq_none {l : List PlanRow} :
    pickLatest l = none ↔ l = [] := by
  cases l with
  | nil => simp [pickLatest]
  | cons r rest =>
    simp only [pickLatest]
    cases h : pickLatest rest with
    | none => simp
    | some b =>
      by_cases hv : b.version < r.version <;> simp [hv]

theorem pickLatest_mem {l : List PlanRow} {r : PlanRow}
    (h : pickLatest l = some r) : r ∈ l := by
  induction l with
  | nil => simp [pickLatest] at h
  | cons a rest ih =>
    simp only [pickLatest] at h
    cases hp : pickLatest rest with
    | none =>
      rw [hp] at h
      simp at h
      simp [h]
    | some b =>
      rw [hp] at h
      by_cases hv : b.version < a.version
      · simp [hv] at h
        simp [h]
      · simp [hv] at h
        subst h
        exact List.mem_cons_of_mem a (ih hp)

theorem pickLatest_max {l : List PlanRow} {r : PlanRow}
    (h : pickLatest l = some r) : ∀ q ∈ l, q.version ≤ r.version := by
  induction l generalizing r with
  | nil => simp [pickLatest] at h
  | cons a rest ih =>
    simp only [pickLatest] at h
    cases hp : pickLatest rest with
    | none =>
      rw [hp] at h
      simp at h
      subst h
      intro q hq
      rcases List.mem_cons.1 hq with hqa | hqr
      · simp [hqa]
      · rw [pickLatest_eq_none.1 hp] at hqr
        simp at hqr
    | some b =>
      rw [hp] at h
      intro q hq
      rcases List.mem_cons.1 hq with hqa | hqr
      · subst hqa
        by_cases hv : b.version < q.version
        · simp [hv] at h
          simp [h]
        · simp [hv] at h
          subst h
          omega
      · by_cases hv : b.version < a.version
        · simp [hv] at h
          subst h
          exact le_of_lt (lt_of_le_of_lt (ih hp q hqr) hv)
        · simp [hv] at h
          subst h
          exact ih hp q hqr

theorem planStatusOf_update (plans : List PlanRow) (pid : ℤ) (st : String)
    (h : plans.any (fun q => decide (q.id = some pid)) = true) :
    planStatusOf (update_trip_plan_status plans (some pid) st).1 (some pid)
      = some st := by
  induction plans with
  | nil => simp at h
  | cons a rest ih =>
    by_cases ha : a.id = some pid
    · simp [planStatusOf, update_trip_plan_status, ha]
    · simp [List.any_cons, ha] at h
      have := ih (by simpa using h)
      simpa [planStatusOf, update_trip_plan_status, ha] using this

theorem tripStatus_update_mem (trips : List TripRow) (tid : ℤ) (st : String) :
    ∀ q ∈ update_trip_status trips tid st, q.id = tid → q.trip_status = st := by
  intro q hq hqid
  simp only [update_trip_status, List.mem_map] at hq
  obtain ⟨r, _, hr⟩ := hq
  by_cases h : r.id = tid
  · simp [h] at hr
    simp [← hr]
  · simp [h] at hr
    subst hr
    exact absurd hqid h

theorem exbind_pure {ε α β : Type} (a : α) (f : α → Except ε β) :
    (Except.ok a >>= f) = f a := rfl

theorem exceptBind_eq_ok {ε α β : Type} {x : Except ε α}
    {f : α → Except ε β} {r : β}
    (h : (x >>= f) = .ok r) : ∃ a, x = .ok a ∧ f a = .ok r := by
  cases x with
  | ok a => exact ⟨a, rfl, h⟩
  | error e => exact Except.noConfusion h

theorem exceptIsOk_exists {ε α : Type} {x : Except ε α} (h : x.isOk = true) :
    ∃ a, x = .ok a := by
  cases x with
  | ok a => exact ⟨a, rfl⟩
  | error e => simp [Except.isOk, Except.toBool] at h

/-- In trip mode with a falsy required field, `auto_fix_and_validate`
rewrites the raw values to missing mode with the demotion payload. -/
theorem auto_fix_demotes (inp : ReqInput)
    (hmode : inp.mode.getD "trip" = "trip")
    (hmiss : missingOf inp ≠ []) :
    auto_fix_and_validate inp =
      { inp with
        mode := some "missing"
        missing_fields := some (missingOf inp)
        error := some "MISSING"
        agent_message :=
          some ("Please provide: " ++ String.intercalate ", " (missingOf inp)) } := by
  unfold auto_fix_and_validate
  rw [hmode]
  simp [hmiss]

/-- Any successful construction from demoted raw values carries the
demotion payload. -/
theorem mk_demoted_fields (inp : ReqInput)
    (hmode : inp.mode.getD "trip" = "trip")
    (hmiss : missingOf inp ≠ []) :
    ∀ r, mkTripRequirements inp = .ok r →
      r.mode = "missing" ∧ r.error = some "MISSING" ∧
      r.missing_fields = some (missingOf inp) := by
  intro r hr
  unfold mkTripRequirements at hr
  rw [auto_fix_demotes inp hmode hmiss] at hr
  simp only [] at hr
  obtain ⟨mo, hmo, hr⟩ := exceptBind_eq_ok hr
  obtain ⟨o2, h2, hr⟩ := exceptBind_eq_ok hr
  obtain ⟨o3, h3, hr⟩ := exceptBind_eq_ok hr
  obtain ⟨o4, h4, hr⟩ := exceptBind_eq_ok hr
  obtain ⟨o5, h5, hr⟩ := exceptBind_eq_ok hr
  simp at hmo
  subst hmo
  rw [if_neg (by decide : ¬("missing" : String) = "trip")] at hr
  obtain ⟨o6, h6, hr⟩ := exceptBind_eq_ok hr
  obtain ⟨o7, h7, hr⟩ := exceptBind_eq_ok hr
  obtain ⟨o8, h8, hr⟩ := exceptBind_eq_ok hr
  obtain ⟨o9, h9, hr⟩ := exceptBind_eq_ok hr
  obtain ⟨o10, h10, hr⟩ := exceptBind_eq_ok hr
  simp at h10
  subst h10
  rw [Except.ok.injEq] at hr
  subst hr
  exact ⟨rfl, rfl, rfl⟩

/-- Construction from type-correct demoted raw values succeeds: the
demotion itself (the missing required fields) never makes the pydantic
constructor raise, because the demoted mode disables the date check and
supplies a valid `error` literal. -/
theorem mk_demoted_ok (inp : ReqInput)
    (hmode : inp.mode.getD "trip" = "trip")
    (hmiss : missingOf inp ≠ [])
    (hwt : wellTypedReq inp = true) :
    (mkTripRequirements inp).isOk = true := by
  unfold wellTypedReq at hwt
  simp only [Bool.and_eq_true] at hwt
  obtain ⟨⟨⟨⟨⟨⟨hw1, hw2⟩, hw3⟩, hw4⟩, hw5⟩, hw6⟩, hw7⟩ := hwt
  obtain ⟨a1, ha1⟩ := exceptIsOk_exists hw1
  obtain ⟨a2, ha2⟩ := exceptIsOk_exists hw2
  obtain ⟨a3, ha3⟩ := exceptIsOk_exists hw3
  obtain ⟨a4, ha4⟩ := exceptIsOk_exists hw4
  obtain ⟨a5, ha5⟩ := exceptIsOk_exists hw5
  obtain ⟨a6, ha6⟩ := exceptIsOk_exists hw6
  obtain ⟨a7, ha7⟩ := exceptIsOk_exists hw7
  unfold mkTripRequirements
  rw [auto_fix_demotes inp hmode hmiss]
  simp [ha1, ha2, ha3, ha4, ha5, ha6, ha7, exbind_pure,
    Except.isOk, Except.toBool]

/-! ## Claim C6 — accommodation normalization -/

/-- C6 counterexample: `"budget"` is one of the canonical accommodation
values of the `Trip` model's `Literal`, yet
`Trip.normalize_accommodation_type` does not return it unchanged — its
internal `valid_types` list omits the four literals `budget`,
`family-friendly`, `business`, `youth hostel`, so `"budget"` falls
through to the `"hotel"` default.  This refutes the claimed idempotence
on every already-canonical value. -/
theorem C6_counterexample :
    TripAccommodationLiterals.contains "budget" = true ∧
    Trip_normalize_accommodation_type "budget" = "hotel" ∧
    Trip_normalize_accommodation_type "budget" ≠ "budget" := by
  refine ⟨by decide, by decide, by decide⟩

/-- C6 (amended): `TripRequirements.normalize_accommodation_type` is
idempotent on all 13 canonical values, and
`Trip.normalize_accommodation_type` on the 9 values of its internal
`valid_types` list (but it maps the remaining canonical value `"budget"`
to `"hotel"`); normalizing `"luxury hotel"` yields `"luxury"`; and
normalizing any string that matches no mapping entry (exactly or as a
substring) and no valid-types entry yields `"hotel"`. -/
theorem C6_normalization_amended (s : String) (hne : s ≠ "")
    (h1 : accommodation_mapping.lookup (pyLower s) = none)
    (h2 : accommodation_mapping.find? (fun kv => pyIn kv.1 (pyLower s)) = none)
    (h3 : (pyLower s) ∉ trip_valid_types)
    (h4 : (pyLower s) ∉ tripreq_valid_types) :
    (tripreq_valid_types.all
      (fun v => TripRequirements_normalize_accommodation_type v == v) = true) ∧
    (trip_valid_types.all
      (fun v => Trip_normalize_accommodation_type v == v) = true) ∧
    Trip_normalize_accommodation_type "luxury hotel" = "luxury" ∧
    TripRequirements_normalize_accommodation_type "luxury hotel" = "luxury" ∧
    Trip_normalize_accommodation_type "budget" = "hotel" ∧
    Trip_normalize_accommodation_type s = "hotel" ∧
    TripRequirements_normalize_accommodation_type s = "hotel" := by
  refine ⟨by decide, by decide, by decide, by decide, by decide, ?_, ?_⟩
  · unfold Trip_normalize_accommodation_type normalize_accommodation_core
    simp [hne, h1, h2, h3]
  · unfold TripRequirements_normalize_accommodation_type
      normalize_accommodation_core
    simp [hne, h1, h2, h4]

/-- Witness for C6 (amended) at the unrecognized string `"zzz"`. -/
theorem C6_normalization_amended_witness :
    Trip_normalize_accommodation_type "zzz" = "hotel" ∧
    TripRequirements_normalize_accommodation_type "zzz" = "hotel" := by
  have h := C6_normalization_amended "zzz" (by decide) (by decide)
    (by decide) (by decide) (by decide)
  exact ⟨h.2.2.2.2.2.1, h.2.2.2.2.2.2⟩

/-! ## Claim C8 — extractor numeric post-processing -/

/-- C8 counterexample: a payload carrying `no_of_adults = -2` passes
through `int(data.get("no_of_adults") or 1)` unchanged, because `-2` is
truthy and converts cleanly, so the result is not ≥ 1 as claimed. -/
theorem C8_counterexample :
    fix_no_of_adults (.vInt (-2)) = -2 ∧
    ¬(1 ≤ fix_no_of_adults (.vInt (-2))) := by
  refine ⟨by decide, by decide⟩

/-- C8 (amended): the post-processing coerces `no_of_adults` to an
integer that is `1` whenever the raw value is falsy or fails `int()`
conversion, and is ≥ 1 for every non-negative integer payload;
`no_of_children` analogously with default `0`; and `budget` becomes a
float or `None`, never a string (an unparseable string budget becomes
`None`).  Negative numeric payloads pass through truncation unclamped,
so the claimed ≥ 1 / ≥ 0 floors do not hold for them. -/
theorem C8_numeric_fix_amended (va vc vb : PVal) :
    (pyTruthy va = false → fix_no_of_adults va = 1) ∧
    (pyToInt va = none → fix_no_of_adults va = 1) ∧
    (∀ z : ℤ, va = .vInt z → 0 ≤ z → 1 ≤ fix_no_of_adults va) ∧
    (pyTruthy vc = false → fix_no_of_children vc = 0) ∧
    (pyToInt vc = none → fix_no_of_children vc = 0) ∧
    (∀ z : ℤ, vc = .vInt z → 0 ≤ z → 0 ≤ fix_no_of_children vc) ∧
    (∀ s, fix_budget vb ≠ .vStr s) ∧
    (∀ s, vb = .vStr s → pyToFloat vb = none → fix_budget vb = .vNone) := by
  refine ⟨?_, ?_, ?_, ?_, ?_, ?_, ?_, ?_⟩
  · intro h
    simp [fix_no_of_adults, h, pyToInt]
  · intro h
    cases ht : pyTruthy va with
    | false => simp [fix_no_of_adults, ht, pyToInt]
    | true => simp [fix_no_of_adults, ht, h]
  · rintro z rfl hz
    rcases lt_or_eq_of_le hz with hz' | hz'
    · have ht : pyTruthy (PVal.vInt z) = true := by
        simp [pyTruthy]
        omega
      simp [fix_no_of_adults, ht, pyToInt]
      omega
    · simp [fix_no_of_adults, pyTruthy, ← hz', pyToInt]
  · intro h
    simp [fix_no_of_children, h, pyToInt]
  · intro h
    cases ht : pyTruthy vc with
    | false => simp [fix_no_of_children, ht, pyToInt]
    | true => simp [fix_no_of_children, ht, h]
  · rintro z rfl hz
    by_cases ht : pyTruthy (PVal.vInt z) = true
    · simp [fix_no_of_children, ht, pyToInt]
      omega
    · simp only [Bool.not_eq_true] at ht
      simp [fix_no_of_children, ht, pyToInt]
  · intro s
    cases vb with
    | vNone => simp [fix_budget]
    | vBool b => simp [fix_budget, pyToFloat]
    | vInt z => simp [fix_budget, pyToFloat]
    | vFloat q => simp [fix_budget, pyToFloat]
    | vStr t =>
      simp only [fix_budget]
      cases h : pyToFloat (PVal.vStr t) <;> simp
    | vDate d => simp [fix_budget, pyToFloat]
  · rintro s rfl h
    simp [fix_budget, h]

/-- Witness for C8 (amended): a falsy adults value and a garbage string
budget at concrete inputs. -/
theorem C8_numeric_fix_amended_witness :
    fix_no_of_adults .vNone = 1 ∧ fix_budget (.vStr "oops") = .vNone := by
  have h := C8_numeric_fix_amended .vNone (.vInt 3) (.vStr "oops")
  exact ⟨h.1 (by decide), h.2.2.2.2.2.2.2 "oops" rfl (by decide)⟩

/-! ## Claim C2 — plan round-trip -/

/-- C2 counterexample: a `TravelPlan` whose `total_estimated_cost` is
`None` round-trips to `0.0`, not to `None` —
`from_travel_plan` stores `travel_plan.total_estimated_cost or 0.0` and
`to_travel_plan` hands the stored float back — so the round-trip does
not reproduce `total_estimated_cost` exactly for every `TravelPlan`. -/
theorem C2_roundtrip_counterexample :
    ((TripPlanModel.from_travel_plan
        { itinerary := .jstr "plan", hotels := [], flights := [],
          daily_budget := 7, total_estimated_cost := none } 1 1).to_travel_plan).total_estimated_cost
      = some 0 ∧
    ({ itinerary := .jstr "plan", hotels := [], flights := [],
       daily_budget := 7, total_estimated_cost := none } : TravelPlan).total_estimated_cost
      = none ∧
    (some (0 : ℚ) ≠ (none : Option ℚ)) := by
  refine ⟨rfl, rfl, by simp⟩

/-- C2 (amended): for every `TravelPlan X`,
`TripPlanModel.from_travel_plan(X, t, v).to_travel_plan()` reproduces
`X`'s itinerary, hotel count, flight count and `daily_budget` exactly,
and its `total_estimated_cost` whenever that is not `None`; a `None`
`total_estimated_cost` comes back as `0.0`. -/
theorem C2_roundtrip_amended (X : TravelPlan) (t v : ℤ) :
    ((TripPlanModel.from_travel_plan X t v).to_travel_plan).itinerary
      = X.itinerary ∧
    ((TripPlanModel.from_travel_plan X t v).to_travel_plan).hotels.length
      = X.hotels.length ∧
    ((TripPlanModel.from_travel_plan X t v).to_travel_plan).flights.length
      = X.flights.length ∧
    ((TripPlanModel.from_travel_plan X t v).to_travel_plan).daily_budget
      = X.daily_budget ∧
    ((TripPlanModel.from_travel_plan X t v).to_travel_plan).total_estimated_cost
      = some (X.total_estimated_cost.getD 0) := by
  unfold TripPlanModel.from_travel_plan TripPlanModel.to_travel_plan
    mkTravelPlan validate_hotels validate_flights
  refine ⟨rfl, ?_, ?_, rfl, rfl⟩
  · by_cases h : X.hotels = [] <;> simp [h, hotelItemDict]
  · by_cases h : X.flights = [] <;> simp [h, flightItemDict]

/-! ## Claim C4 — plan builder fallback entries -/

/-- C4 counterexample: two return paths yield empty lists.  (a) The
`except` branch of `planner` (hit when anything in the `try` block
raises) returns `TravelPlan(itinerary="Fallback plan", hotels=[],
flights=[], ...)`.  (b) A successfully parsed output such as
`{"hotels": ["Hotel A"], "flights": ["F1"]}` carries truthy lists, so
the hard validation guard inserts no fallback, yet
`TravelPlan.validate_hotels`/`validate_flights` drop every non-dict
element and the returned plan's lists are empty.  Both contradict the
claim that the lists are non-empty on every return path. -/
theorem C4_planner_counterexample :
    (planner_result none "Paris" (some 100)).hotels = [] ∧
    (planner_result none "Paris" (some 100)).flights = [] ∧
    (planner_result
      (some { hotels := some [.hother (.jstr "Hotel A")]
              flights := some [.fother (.jstr "F1")] })
      "Paris" (some 100)).hotels = [] ∧
    (planner_result
      (some { hotels := some [.hother (.jstr "Hotel A")]
              flights := some [.fother (.jstr "F1")] })
      "Paris" (some 100)).flights = [] :=
  ⟨rfl, rfl, rfl, rfl⟩

/-- C4 (amended): when the parsed output's hotels (resp. flights) entry
is absent, `None` or an empty list, the hard validation guard replaces
it with exactly one fallback placeholder dict, which survives the
`TravelPlan` validators, so the returned list has exactly that one
entry; a truthy parsed list passes the guard unchanged and the returned
list keeps exactly its dict elements — in particular it is non-empty
whenever at least one element is a dict, but a truthy list of non-dict
elements yields an empty list, as does the `except`-branch fallback
path. -/
theorem C4_planner_fallback_amended (d : PlannerParsed) (destination : String)
    (budget : Option ℚ) (hs : List HotelItem) (fs : List FlightItem)
    (h : HotelSuggestion) (f : FlightSuggestion)
    (hhs : HotelItem.hdict h ∈ hs) (hfs : FlightItem.fdict f ∈ fs) :
    (planner_result (some { d with hotels := none }) destination budget).hotels
      = [fallback_hotel destination] ∧
    (planner_result (some { d with hotels := some [] }) destination budget).hotels
      = [fallback_hotel destination] ∧
    (planner_result (some { d with flights := none }) destination budget).flights
      = [fallback_flight] ∧
    (planner_result (some { d with flights := some [] }) destination budget).flights
      = [fallback_flight] ∧
    (planner_result (some { d with hotels := some hs }) destination budget).hotels
      = hs.filterMap hotelItemDict ∧
    h ∈ (planner_result (some { d with hotels := some hs }) destination budget).hotels ∧
    (planner_result (some { d with flights := some fs }) destination budget).flights
      = fs.filterMap flightItemDict ∧
    f ∈ (planner_result (some { d with flights := some fs }) destination budget).flights ∧
    (planner_result none destination budget).hotels = [] ∧
    (planner_result none destination budget).flights = [] := by
  obtain ⟨a, rest, rfl⟩ : ∃ a rest, hs = a :: rest := by
    cases hs with
    | nil => simp at hhs
    | cons a rest => exact ⟨a, rest, rfl⟩
  obtain ⟨b, frest, rfl⟩ : ∃ b frest, fs = b :: frest := by
    cases fs with
    | nil => simp at hfs
    | cons b frest => exact ⟨b, frest, rfl⟩
  refine ⟨?_, ?_, ?_, ?_, ?_, ?_, ?_, ?_, rfl, rfl⟩
  · simp [planner_result, mkTravelPlan, validate_hotels, hotelItemDict]
  · simp [planner_result, mkTravelPlan, validate_hotels, hotelItemDict]
  · simp [planner_result, mkTravelPlan, validate_flights, flightItemDict]
  · simp [planner_result, mkTravelPlan, validate_flights, flightItemDict]
  · simp [planner_result, mkTravelPlan, validate_hotels]
  · simp only [planner_result, mkTravelPlan, validate_hotels]
    exact List.mem_filterMap.2 ⟨.hdict h, hhs, rfl⟩
  · simp [planner_result, mkTravelPlan, validate_flights]
  · simp only [planner_result, mkTravelPlan, validate_flights]
    exact List.mem_filterMap.2 ⟨.fdict f, hfs, rfl⟩

/-- The parsed output of the C4 witness: one hotel dict and one flight
dict. -/
def c4WParsed : PlannerParsed :=
  { hotels := some [.hdict { name := "H" }]
    flights := some [.fdict { airline := "A" }] }

/-- Witness for C4 (amended) at a concrete parsed output with one dict
element per list. -/
theorem C4_planner_fallback_amended_witness :
    ({ name := "H" } : HotelSuggestion)
      ∈ (planner_result (some c4WParsed) "Paris" none).hotels ∧
    (planner_result none "Paris" none).hotels = [] := by
  have hthm := C4_planner_fallback_amended c4WParsed "Paris" none
    [.hdict { name := "H" }] [.fdict { airline := "A" }]
    { name := "H" } { airline := "A" }
    (List.mem_cons_self _ _) (List.mem_cons_self _ _)
  exact ⟨hthm.2.2.2.2.2.1, hthm.2.2.2.2.2.2.2.2.1⟩

/-! ## Claim C7 — Trip date validation -/

/-- C7: every successfully constructed `Trip` has
`trip_startdate < trip_enddate`, and every attempted construction with
`trip_enddate ≤ trip_startdate` fails with a validation error (either
from `validate_dates` or, when the start date is itself invalid, from
`validate_future_date` — in both cases construction raises). -/
theorem C7_trip_dates (id : Option ℤ) (today : ℤ)
    (origin destination : String) (s e : ℤ) (acc : Option String)
    (ad ch : ℤ) (b : ℚ) :
    (∀ t, mkTrip id today origin destination s e acc ad ch b = .ok t →
      t.trip_startdate < t.trip_enddate) ∧
    (e ≤ s →
      (mkTrip id today origin destination s e acc ad ch b).isOk = false) := by
  constructor
  · intro t ht
    by_cases h1 : id = none ∧ s ≤ today
    · simp [mkTrip, h1] at ht
    · by_cases h2 : e ≤ s
      · simp [mkTrip, h1, h2] at ht
      · have he : s < e := by omega
        by_cases hall : Trip_normalize_accommodation_type (acc.getD "") ∈
            TripAccommodationLiterals ∧ 1 ≤ ad ∧ 0 ≤ ch ∧ 0 ≤ b
        · simp [mkTrip, h1, h2, hall] at ht
          subst ht
          exact he
        · simp [mkTrip, h1, h2, hall] at ht
  · intro h2
    by_cases h1 : id = none ∧ s ≤ today
    · simp [mkTrip, h1, h2, Except.isOk, Except.toBool]
    · simp [mkTrip, h1, h2, Except.isOk, Except.toBool]

/-- Witness for C7 at a concrete inverted date pair. -/
theorem C7_trip_dates_witness :
    ((5 : ℤ) ≤ 10) ∧
    (mkTrip (some 1) 0 "Paris" "Rome" 10 5 none 1 0 100).isOk = false :=
  ⟨by decide,
   (C7_trip_dates (some 1) 0 "Paris" "Rome" 10 5 none 1 0 100).2 (by decide)⟩

/-! ## Claim C1 — TripRequirements missing-field demotion -/

/-- The raw input of the C1 counterexample: `origin` is absent but
`budget` is present with the (falsy) value `0.0`. -/
def c1CxInput : ReqInput :=
  { origin := .vNone, destination := .vStr "Paris",
    trip_startdate := .vDate 100, trip_enddate := .vDate 105,
    no_of_adults := .vInt 2, budget := .vFloat 0 }

/-- C1 counterexample: with `origin` absent and `budget` present but
equal to `0.0`, the constructed object's `missing_fields` is
`["origin", "budget"]`, not the set of absent field names `["origin"]` —
presence is decided by truthiness, so the falsy-but-present `budget` is
also reported missing. -/
theorem C1_counterexample :
    ((mkTripRequirements c1CxInput).toOption.map (fun r => r.missing_fields))
      = some (some ["origin", "budget"]) ∧
    requiredFields.filter (fun f => decide (reqGet c1CxInput f = .vNone))
      = ["origin"] ∧
    (some ["origin", "budget"] : Option (List String)) ≠ some ["origin"] := by
  refine ⟨rfl, by decide, by decide⟩

/-- C1 (amended): for every trip-mode construction in which any required
field is absent *or falsy*, the constructed object has mode
`"missing"`, `error = "MISSING"`, and `missing_fields` equal to exactly
the required fields whose raw value is absent or falsy; and the
construction never raises for this reason (it succeeds whenever the raw
values are type-correct for their fields). -/
theorem C1_missing_mode_amended (inp : ReqInput)
    (hmode : inp.mode.getD "trip" = "trip")
    (hmiss : missingOf inp ≠ []) :
    (∀ r, mkTripRequirements inp = .ok r →
      r.mode = "missing" ∧ r.error = some "MISSING" ∧
      r.missing_fields = some (missingOf inp)) ∧
    (wellTypedReq inp = true → (mkTripRequirements inp).isOk = true) :=
  ⟨mk_demoted_fields inp hmode hmiss, mk_demoted_ok inp hmode hmiss⟩

/-- Witness for C1 (amended) at the empty raw input (all six required
fields absent). -/
theorem C1_missing_mode_amended_witness :
    (mkTripRequirements ({} : ReqInput)).isOk = true :=
  (C1_missing_mode_amended {} rfl (by decide)).2 (by decide)

/-! ## Claim C10 — truthiness-based presence -/

/-- C10: trip-mode requirements with `budget == 0` (or
`no_of_adults == 0`) are demoted to missing mode with that field in
`missing_fields`, although the `Trip` model itself accepts
`budget == 0` (its constraint is only `ge=0`). -/
theorem C10_truthiness_demotion (inp : ReqInput)
    (hmode : inp.mode.getD "trip" = "trip") :
    (inp.budget = .vFloat 0 →
      ∀ r, mkTripRequirements inp = .ok r →
        r.mode = "missing" ∧ "budget" ∈ r.missing_fields.getD []) ∧
    (inp.no_of_adults = .vInt 0 →
      ∀ r, mkTripRequirements inp = .ok r →
        r.mode = "missing" ∧ "no_of_adults" ∈ r.missing_fields.getD []) ∧
    (mkTrip (some 1) 0 "Paris" "Rome" 10 20 none 2 0 0).isOk = true := by
  refine ⟨?_, ?_, by decide⟩
  · intro hb r hr
    have hmem : "budget" ∈ missingOf inp := by
      unfold missingOf
      rw [List.mem_filter]
      exact ⟨by decide, by simp [requiredFields, reqGet, hb, pyTruthy]⟩
    have hne : missingOf inp ≠ [] := List.ne_nil_of_mem hmem
    have h := mk_demoted_fields inp hmode hne r hr
    refine ⟨h.1, ?_⟩
    rw [h.2.2]
    exact hmem
  · intro ha r hr
    have hmem : "no_of_adults" ∈ missingOf inp := by
      unfold missingOf
      rw [List.mem_filter]
      exact ⟨by decide, by simp [requiredFields, reqGet, ha, pyTruthy]⟩
    have hne : missingOf inp ≠ [] := List.ne_nil_of_mem hmem
    have h := mk_demoted_fields inp hmode hne r hr
    refine ⟨h.1, ?_⟩
    rw [h.2.2]
    exact hmem

/-- The raw input of the C10 witness: complete except for a zero
budget. -/
def c10WInput : ReqInput :=
  { origin := .vStr "A", destination := .vStr "B",
    trip_startdate := .vDate 1, trip_enddate := .vDate 2,
    no_of_adults := .vInt 2, budget := .vFloat 0 }

/-- The object `c10WInput` constructs. -/
def c10WResult : TripRequirements :=
  { mode := "missing", origin := some "A", destination := some "B",
    trip_startdate := some 1, trip_enddate := some 2,
    no_of_adults := some 2, no_of_children := 0, budget := some 0,
    accommodation_type := "hotel", error := some "MISSING",
    missing_fields := some ["budget"],
    agent_message := some "Please provide: budget" }

/-- Witness for C10 at a concrete zero-budget construction. -/
theorem C10_truthiness_demotion_witness :
    c10WResult.mode = "missing" ∧
    "budget" ∈ c10WResult.missing_fields.getD [] :=
  (C10_truthiness_demotion c10WInput rfl).1 rfl c10WResult (by rfl)

/-! ## Claim C5 — latest plan version -/

/-- C5: `get_trip_plan_by_trip_id` without a version argument returns
`None` exactly when no row matches the trip id, and otherwise a row
(validated as a `TripPlanModel`, which succeeds for persisted rows whose
status is a model literal) whose version is the maximum over all rows
with that trip id. -/
theorem C5_latest_version (plans : List PlanRow) (tid : ℤ)
    (hwf : ∀ r ∈ plans, planStatusLiterals.contains r.status = true) :
    (get_trip_plan_by_trip_id plans tid none = .ok none ↔
      plans.filter (fun r => decide (r.trip_id = tid)) = []) ∧
    (∀ p, get_trip_plan_by_trip_id plans tid none = .ok (some p) →
      p.trip_id = tid ∧
      p.version ∈ (plans.filter (fun r => decide (r.trip_id = tid))).map
        (·.version) ∧
      ∀ w ∈ (plans.filter (fun r => decide (r.trip_id = tid))).map
        (·.version), w ≤ p.version) := by
  cases hpl : pickLatest (plans.filter (fun r => decide (r.trip_id = tid))) with
  | none =>
    have hLnil := pickLatest_eq_none.1 hpl
    constructor
    · simp [get_trip_plan_by_trip_id, hpl, hLnil, pickLatest]
    · intro p hp
      simp [get_trip_plan_by_trip_id, hpl] at hp
  | some r =>
    have hrmem := pickLatest_mem hpl
    have hrmax := pickLatest_max hpl
    have hrp : r ∈ plans := (List.mem_filter.1 hrmem).1
    have hrtid : r.trip_id = tid := by
      have := (List.mem_filter.1 hrmem).2
      simpa using this
    have hst := hwf r hrp
    have hst2 : r.status ∈ planStatusLiterals := by simpa using hst
    have hget : get_trip_plan_by_trip_id plans tid none
        = .ok (some
            { id := r.id
              trip_id := r.trip_id
              itinerary_json := r.itinerary_json
              hotels_json := r.hotels_json
              flights_json := r.flights_json
              daily_budget := r.daily_budget
              total_estimated_cost := r.total_estimated_cost
              status := r.status
              version := r.version }) := by
      simp [get_trip_plan_by_trip_id, hpl, mkTripPlanModel, hst2,
        Except.map]
    constructor
    · rw [hget]
      constructor
      · intro h
        simp at h
      · intro h
        rw [h] at hrmem
        simp at hrmem
    · intro p hp
      rw [hget, Except.ok.injEq, Option.some.injEq] at hp
      subst hp
      refine ⟨hrtid, List.mem_map.2 ⟨r, hrmem, rfl⟩, ?_⟩
      intro w hw
      obtain ⟨q, hq, hqw⟩ := List.mem_map.1 hw
      rw [← hqw]
      exact hrmax q hq

/-- The rows of the C5 witness: two plan versions for trip 5. -/
def c5WPlans : List PlanRow :=
  [{ id := some 1, trip_id := 5, status := "draft", version := 1 },
   { id := some 2, trip_id := 5, status := "draft", version := 2 }]

/-- The model the C5 witness fetch returns. -/
def c5WModel : TripPlanModel :=
  { id := some 2, trip_id := 5, status := "draft", version := 2 }

/-- Witness for C5: on two persisted versions, the version-2 row is
returned and dominates every stored version. -/
theorem C5_latest_version_witness :
    get_trip_plan_by_trip_id c5WPlans 5 none = .ok (some c5WModel) ∧
    (c5WModel.trip_id = 5 ∧
     c5WModel.version ∈ (c5WPlans.filter (fun r => decide (r.trip_id = 5))).map
       (·.version) ∧
     ∀ w ∈ (c5WPlans.filter (fun r => decide (r.trip_id = 5))).map
       (·.version), w ≤ c5WModel.version) :=
  ⟨by rfl, (C5_latest_version c5WPlans 5 (by decide)).2 c5WModel (by rfl)⟩

/-! ## Claim C9 — "confirmed" plan status mismatch -/

/-- C9: the plan-status endpoint accepts `"confirmed"` and writes it to
the row, but `"confirmed"` is not a `TripPlanModel` status literal, so
any subsequent fetch that selects a `"confirmed"` row fails model
validation instead of returning the plan. -/
theorem C9_confirmed_status_mismatch (plans plans2 : List PlanRow)
    (pid tid : ℤ) (r : PlanRow)
    (hex : plans.any (fun q => decide (q.id = some pid)) = true)
    (hlatest : pickLatest (plans2.filter (fun q => decide (q.trip_id = tid)))
      = some r)
    (hst : r.status = "confirmed") :
    (update_plan_status plans pid "confirmed").2 = true ∧
    planStatusOf (update_plan_status plans pid "confirmed").1 (some pid)
      = some "confirmed" ∧
    allowedStatusValues.contains "confirmed" = true ∧
    planStatusLiterals.contains "confirmed" = false ∧
    (get_trip_plan_by_trip_id plans2 tid none).isOk = false := by
  have hs : pyStrip (pyLower "confirmed") = "confirmed" := by decide
  refine ⟨?_, ?_, by decide, by decide, ?_⟩
  · unfold update_plan_status
    rw [hs, if_pos (by decide : allowedStatusValues.contains "confirmed" = true)]
    unfold update_trip_plan_status
    simpa using hex
  · unfold update_plan_status
    rw [hs, if_pos (by decide : allowedStatusValues.contains "confirmed" = true)]
    exact planStatusOf_update plans pid "confirmed" hex
  · have hget : get_trip_plan_by_trip_id plans2 tid none
        = (mkTripPlanModel r).map some := by
      simp [get_trip_plan_by_trip_id, hlatest]
    rw [hget]
    unfold mkTripPlanModel
    rw [hst,
      if_neg (by decide : ¬planStatusLiterals.contains "confirmed" = true)]
    simp [Except.map, Except.isOk, Except.toBool]

/-- The single-plan table the C9 witness updates. -/
def c9WPlans : List PlanRow :=
  [{ id := some 7, trip_id := 3, status := "draft", version := 1 }]

/-- The table after the C9 witness update: the stored status is
`"confirmed"`. -/
def c9WPlans2 : List PlanRow :=
  [{ id := some 7, trip_id := 3, status := "confirmed", version := 1 }]

/-- Witness for C9 at a concrete one-row table. -/
theorem C9_confirmed_status_mismatch_witness :
    (update_plan_status c9WPlans 7 "confirmed").2 = true ∧
    planStatusOf (update_plan_status c9WPlans 7 "confirmed").1 (some 7)
      = some "confirmed" ∧
    allowedStatusValues.contains "confirmed" = true ∧
    planStatusLiterals.contains "confirmed" = false ∧
    (get_trip_plan_by_trip_id c9WPlans2 3 none).isOk = false :=
  C9_confirmed_status_mismatch c9WPlans c9WPlans2 7 3
    { id := some 7, trip_id := 3, status := "confirmed", version := 1 }
    (by decide) (by rfl) rfl

/-! ## Claim C3 — approval workflows -/

/-- The database of the C3 counterexample: one trip in `draft` with one
persisted `draft` plan. -/
def c3CxDb : DBState :=
  { trips := [{ id := 1, trip_status := "draft" }],
    plans := [{ id := some 10, trip_id := 1, status := "draft", version := 1 }] }

/-- C3 counterexample: the AutoGen (phase-3) orchestrator's
`continue_trip_approval` with decision `"approved"` updates only the
plan's status; the owning trip's `trip_status` stays `"draft"` instead
of becoming `"confirmed"`, so the claim fails for this orchestrator
variant. -/
theorem C3_counterexample :
    phase3_continue_trip_approval c3CxDb 1 "approved" =
      .ok ({ trips := [{ id := 1, trip_status := "draft" }],
             plans := [{ id := some 10, trip_id := 1, status := "approved",
                         version := 1 }] }, true) ∧
    tripStatusOf [{ id := 1, trip_status := "draft" }] 1 = some "draft" ∧
    (some "draft" : Option String) ≠ some "confirmed" := by
  refine ⟨by rfl, by rfl, by decide⟩

/-- C3 (amended): the CrewAI (phase-2) orchestrator behaves as claimed —
`"approved"` sets the latest plan to `approved` and the trip to
`confirmed`, `"rejected"` sets the plan to `rejected` and the trip back
to `draft` — but the AutoGen (phase-3) orchestrator only writes the
decision string to the latest plan's status and leaves the trips table
untouched. -/
theorem C3_approval_amended (db : DBState) (tid pid : ℤ) (p : TripPlanModel)
    (hget : get_trip_plan_by_trip_id db.plans tid none = .ok (some p))
    (hpid : p.id = some pid)
    (hrow : db.plans.any (fun q => decide (q.id = some pid)) = true) :
    (∀ out, phase2_continue_trip_approval db tid "approved" = .ok out →
      out.2 = true ∧
      planStatusOf out.1.plans (some pid) = some "approved" ∧
      ∀ q ∈ out.1.trips, q.id = tid → q.trip_status = "confirmed") ∧
    (∀ out, phase2_continue_trip_approval db tid "rejected" = .ok out →
      out.2 = true ∧
      planStatusOf out.1.plans (some pid) = some "rejected" ∧
      ∀ q ∈ out.1.trips, q.id = tid → q.trip_status = "draft") ∧
    (∀ d out, phase3_continue_trip_approval db tid d = .ok out →
      out.2 = true ∧
      planStatusOf out.1.plans (some pid) = some d ∧
      out.1.trips = db.trips) := by
  refine ⟨?_, ?_, ?_⟩
  · intro out hout
    unfold phase2_continue_trip_approval at hout
    simp only [hget, if_true, if_false] at hout
    rw [Except.ok.injEq] at hout
    subst hout
    refine ⟨rfl, ?_, ?_⟩
    · rw [hpid]
      exact planStatusOf_update db.plans pid "approved" hrow
    · exact tripStatus_update_mem db.trips tid "confirmed"
  · intro out hout
    unfold phase2_continue_trip_approval at hout
    simp only [hget, if_true, if_false] at hout
    rw [if_neg (by decide : ¬("rejected" : String) = "approved"),
      Except.ok.injEq] at hout
    subst hout
    refine ⟨rfl, ?_, ?_⟩
    · rw [hpid]
      exact planStatusOf_update db.plans pid "rejected" hrow
    · exact tripStatus_update_mem db.trips tid "draft"
  · intro d out hout
    unfold phase3_continue_trip_approval at hout
    simp only [hget] at hout
    rw [Except.ok.injEq] at hout
    subst hout
    refine ⟨rfl, ?_, rfl⟩
    rw [hpid]
    exact planStatusOf_update db.plans pid d hrow

/-- The database of the C3 witness. -/
def c3WDb : DBState :=
  { trips := [{ id := 2, trip_status := "draft" }],
    plans := [{ id := some 11, trip_id := 2, status := "draft", version := 1 }] }

/-- The plan model fetched by the C3 witness. -/
def c3WModel : TripPlanModel :=
  { id := some 11, trip_id := 2, status := "draft", version := 1 }

/-- The result of the phase-2 approval in the C3 witness. -/
def c3WOut : DBState × Bool :=
  ({ trips := [{ id := 2, trip_status := "confirmed" }],
     plans := [{ id := some 11, trip_id := 2, status := "approved",
                 version := 1 }] }, true)

/-- Witness for C3 (amended) at a concrete one-trip database. -/
theorem C3_approval_amended_witness :
    c3WOut.2 = true ∧ planStatusOf c3WOut.1.plans (some 11) = some "approved" := by
  have h := (C3_approval_amended c3WDb 2 11 c3WModel (by rfl) rfl
    (by decide)).1 c3WOut (by rfl)
  exact ⟨h.1, h.2.1⟩

end TravelAgent
